import Mathlib

/-!
Verification of the Cybernate AI SDK client (src/src/index.js) against its
natural-language specification. The JavaScript class CybernateAI is shallowly
embedded: the mutable fields of the client object become a Lean structure
ClientState, methods become pure functions from state (plus the outcomes of
the I/O they perform) to state and result, and JavaScript truthiness on
strings and optional values is modelled explicitly.
-/

namespace Cybernate

/-- Models the JavaScript expression v OR d for a possibly-absent string v:
returns d when v is absent or empty (both falsy), otherwise the string
itself. -/
def jsStrOr (v : Option String) (d : String) : String :=
  match v with
  | none => d
  | some s => if s = "" then d else s

/-- Models JavaScript truthiness of a possibly-absent string: absent and the
empty string are falsy, every other string truthy. -/
def strTruthy : Option String → Bool
  | none => false
  | some s => decide (s ≠ "")

/-! ## Listener Table

In the source, this.eventListeners is a plain object mapping an event-type
tag to an array of callback functions. The object is embedded as an
association list from tags to lists of callback identifiers; callbacks are
identified by natural numbers, and their runtime behaviour (return normally
or throw) is supplied as a function from identifier to outcome. -/

/-- Listener table: association list from event-type tag to the ordered list
of registered callback identifiers, mirroring the this.eventListeners
object. A tag absent from the list corresponds to an undefined property. -/
abbrev ListenerTable := List (String × List Nat)

/-- Looks a tag up in the listener table, mirroring the property access
this.eventListeners[tag] (none corresponds to undefined). -/
def lookupTag : ListenerTable → String → Option (List Nat)
  | [], _ => none
  | (k, v) :: rest, tag => if k = tag then some v else lookupTag rest tag

/-- Replaces the callback list stored under an existing tag, mirroring the
assignment this.eventListeners[tag] = l for a tag already present. -/
def setTag (tbl : ListenerTable) (tag : String) (l : List Nat) : ListenerTable :=
  tbl.map (fun e => if e.1 = tag then (tag, l) else e)

/-- Removes a tag entirely, mirroring delete this.eventListeners[tag]. -/
def deleteTag (tbl : ListenerTable) (tag : String) : ListenerTable :=
  tbl.filter (fun e => decide (e.1 ≠ tag))

/-- Embeds the on(event, callback) method, restricted to its effect on the
listener table: creates the array if the tag is absent, then pushes the
callback at the end. (The lazy stream-setup attempt that on also triggers
does not touch the table and is modelled with the connection manager.) -/
def onListener (tbl : ListenerTable) (tag : String) (cb : Nat) : ListenerTable :=
  match lookupTag tbl tag with
  | none => tbl ++ [(tag, [cb])]
  | some l => setTag tbl tag (l ++ [cb])

/-- Embeds the off(event, callback?) method: returns the table unchanged if
the tag has no entry; deletes the whole entry when the callback is omitted;
otherwise filters out every occurrence equal (by reference in the source,
here by identifier) to the callback. -/
def off (tbl : ListenerTable) (tag : String) (cb : Option Nat) : ListenerTable :=
  match lookupTag tbl tag with
  | none => tbl
  | some l =>
    match cb with
    | none => deleteTag tbl tag
    | some c => setTag tbl tag (l.filter (fun x => decide (x ≠ c)))

/-- Outcome of invoking one callback: it returns normally or it throws. -/
inductive CbOutcome where
  | ok
  | threw
deriving DecidableEq, Repr

/-- Embeds the forEach loop over one callback array in _dispatchEvent. Each
iteration invokes the callback inside a try/catch whose catch branch only
logs, so the loop records the outcome and always continues to the next
callback. The returned list is the invocation log in order. -/
def runListeners (beh : Nat → CbOutcome) : List Nat → List (Nat × CbOutcome)
  | [] => []
  | c :: rest => (c, beh c) :: runListeners beh rest

/-- Embeds _dispatchEvent(eventData): computes the tag as
eventData.eventType OR "detection" (JavaScript truthiness, so an absent or
empty event type defaults), runs the callbacks registered under that tag if
the property is defined, then the callbacks registered under "all" if that
property is defined. Returns the full invocation log. -/
def dispatchEvent (beh : Nat → CbOutcome) (tbl : ListenerTable)
    (eventType : Option String) : List (Nat × CbOutcome) :=
  let tag := jsStrOr eventType "detection"
  let specific :=
    match lookupTag tbl tag with
    | some l => runListeners beh l
    | none => []
  let wildcard :=
    match lookupTag tbl "all" with
    | some l => runListeners beh l
    | none => []
  specific ++ wildcard

/-- Callback list registered under a tag, reading an absent entry as the
empty list (an undefined property dispatches no callbacks). -/
def getListeners (tbl : ListenerTable) (tag : String) : List Nat :=
  (lookupTag tbl tag).getD []

theorem runListeners_fst (beh : Nat → CbOutcome) (l : List Nat) :
    (runListeners beh l).map Prod.fst = l := by
  induction l with
  | nil => rfl
  | cons c rest ih => simp [runListeners, ih]

theorem lookupTag_setTag_self (tbl : ListenerTable) (tag : String) (l : List Nat) :
    lookupTag (setTag tbl tag l) tag = (lookupTag tbl tag).map (fun _ => l) := by
  induction tbl with
  | nil => rfl
  | cons e rest ih =>
    simp only [setTag, List.map_cons]
    by_cases h : e.1 = tag
    · rw [if_pos h]
      simp [lookupTag, h]
    · rw [if_neg h]
      simp only [lookupTag, if_neg h]
      simpa [setTag] using ih

theorem lookupTag_setTag_other (tbl : ListenerTable) (tag tag' : String)
    (l : List Nat) (h : tag' ≠ tag) :
    lookupTag (setTag tbl tag l) tag' = lookupTag tbl tag' := by
  induction tbl with
  | nil => rfl
  | cons e rest ih =>
    simp only [setTag, List.map_cons]
    by_cases he : e.1 = tag
    · rw [if_pos he]
      simp only [lookupTag, if_neg (Ne.symm h), he, if_neg h]
      simpa [setTag] using ih
    · rw [if_neg he]
      by_cases he2 : e.1 = tag'
      · simp [lookupTag, he2]
      · simp only [lookupTag, if_neg he2]
        simpa [setTag] using ih

theorem lookupTag_deleteTag_self (tbl : ListenerTable) (tag : String) :
    lookupTag (deleteTag tbl tag) tag = none := by
  induction tbl with
  | nil => rfl
  | cons e rest ih =>
    by_cases he : e.1 = tag
    · simpa [deleteTag, he] using ih
    · simpa [deleteTag, lookupTag, he] using ih

theorem lookupTag_append (t1 t2 : ListenerTable) (tag : String) :
    lookupTag (t1 ++ t2) tag =
      (match lookupTag t1 tag with
        | some l => some l
        | none => lookupTag t2 tag) := by
  induction t1 with
  | nil => rfl
  | cons e rest ih =>
    by_cases he : e.1 = tag
    · simp [lookupTag, he]
    · simpa [lookupTag, he] using ih

/-- Claim C1: for every inbound event and every listener-table state,
dispatching the event invokes exactly the callbacks registered under the
event tag (eventType, defaulting to "detection" when absent), followed by
the callbacks registered under "all", each once per registration in
registration order; the invocation log is independent of which callbacks
throw, because each invocation is wrapped in a try/catch that only logs, so
a throwing callback never prevents a remaining callback (of the same or the
other tag) from running. -/
theorem dispatch_invokes_tag_then_all (beh : Nat → CbOutcome)
    (tbl : ListenerTable) (eventType : Option String) :
    (dispatchEvent beh tbl eventType).map Prod.fst =
      getListeners tbl (jsStrOr eventType "detection") ++ getListeners tbl "all" := by
  unfold dispatchEvent getListeners
  cases h1 : lookupTag tbl (jsStrOr eventType "detection") <;>
    cases h2 : lookupTag tbl "all" <;>
    simp [h1, h2, runListeners_fst]

/-- Claim C8: register appends without deduplication (the count of the
callback under the tag grows by exactly one per registration); registering
under one tag leaves every other tag unchanged; unregister with a callback
removes all equal occurrences preserving the relative order of the rest (a
filter); unregister with the callback omitted removes the entire entry for
the tag; and unregister on a tag with no listeners leaves the whole table
unchanged. -/
theorem listener_register_unregister (tbl : ListenerTable) (tag : String) (cb : Nat) :
    getListeners (onListener tbl tag cb) tag = getListeners tbl tag ++ [cb] ∧
    (getListeners (onListener tbl tag cb) tag).count cb = (getListeners tbl tag).count cb + 1 ∧
    (∀ tag', tag' ≠ tag → getListeners (onListener tbl tag cb) tag' = getListeners tbl tag') ∧
    getListeners (off tbl tag (some cb)) tag =
      (getListeners tbl tag).filter (fun x => decide (x ≠ cb)) ∧
    lookupTag (off tbl tag none) tag = none ∧
    (lookupTag tbl tag = none → ∀ c, off tbl tag c = tbl) := by
  have happ : getListeners (onListener tbl tag cb) tag = getListeners tbl tag ++ [cb] := by
    unfold onListener getListeners
    cases h : lookupTag tbl tag with
    | none =>
      rw [lookupTag_append tbl [(tag, [cb])] tag]
      simp [lookupTag, h]
    | some l =>
      rw [lookupTag_setTag_self]
      simp [h]
  refine ⟨happ, ?_, ?_, ?_, ?_, ?_⟩
  · rw [happ]
    simp [List.count_append]
  · intro tag' hne
    unfold onListener getListeners
    cases h : lookupTag tbl tag with
    | none =>
      rw [lookupTag_append tbl [(tag, [cb])] tag']
      cases h' : lookupTag tbl tag' <;> simp [lookupTag, Ne.symm hne]
    | some l =>
      rw [lookupTag_setTag_other tbl tag tag' (l ++ [cb]) hne]
  · unfold off getListeners
    cases h : lookupTag tbl tag with
    | none => simp [h]
    | some l =>
      rw [lookupTag_setTag_self]
      simp [h]
  · unfold off
    cases h : lookupTag tbl tag with
    | none => exact h
    | some l => exact lookupTag_deleteTag_self tbl tag
  · intro h c
    unfold off
    rw [h]


/-! ## Client Session state

The mutable fields that the CybernateAI constructor initialises become a
record; the this.socket field (null, or a socket.io handle whose connected
flag may be true or false) is modelled as an optional Bool. -/

/-- Rate-limit snapshot tracked on the client (this.rateLimit). -/
structure RateLimit where
  limit : Nat
  remaining : Nat
  reset : Nat
deriving DecidableEq, Repr

/-- Entry of the active-watcher map: the fields stored by watch() from the
server response (creation timestamp abstracted away). -/
structure WatcherInfo where
  id : String
  type : String
  entityId : String
deriving DecidableEq, Repr

/-- Client session state: the mutable own-fields of a CybernateAI instance.
The socket field models this.socket: none is a null socket, some b a socket
object whose connected flag is b. -/
structure ClientState where
  apiKey : String
  enableWebSocket : Bool
  autoReconnect : Bool
  reconnectAttempts : Nat
  eventListeners : ListenerTable
  activeWatchers : List (String × WatcherInfo)
  socket : Option Bool
  isConnected : Bool
  isConnecting : Bool
  reconnectCount : Nat
  rateLimit : RateLimit
deriving DecidableEq, Repr

/-- Models the JavaScript expression this.socket?.connected coerced to a
boolean (null socket gives false). -/
def socketIsConnected (s : ClientState) : Bool :=
  decide (s.socket = some true)

/-- State produced by the constructor for a given key with default options:
listeners and watchers empty, socket null, flags false, counter zero,
rate-limit snapshot zeroed. -/
def initialState (key : String) : ClientState :=
  { apiKey := key
    enableWebSocket := true
    autoReconnect := true
    reconnectAttempts := 5
    eventListeners := []
    activeWatchers := []
    socket := none
    isConnected := false
    isConnecting := false
    reconnectCount := 0
    rateLimit := { limit := 0, remaining := 0, reset := 0 } }

/-- Embeds _ensureConnected(): throws unless this.isConnected is true. -/
def ensureConnected (s : ClientState) : Except String Unit :=
  if s.isConnected then Except.ok ()
  else Except.error "Not connected to Cybernate API. Call connect() first."

/-- Embeds the session-field effect of one _setupWebSocket() attempt when
the socket.io client library is present, so a socket object is created. On
success the connect handler fires: the socket is connected and the handler
resets this.reconnectCount to zero. On failure (connect_error or timeout)
the promise rejects with the socket object present but not connected. -/
def setupWebSocketState (s : ClientState) (setupOk : Bool) : ClientState :=
  if setupOk then { s with socket := some true, reconnectCount := 0 }
  else { s with socket := some false }

/-- Result of a connect() call: resolved with the websocketEnabled flag the
method returns (the coerced this.socket?.connected), or rejected with the
thrown error message. -/
inductive ConnectOutcome where
  | resolved (websocketEnabled : Bool)
  | rejected (msg : String)
deriving DecidableEq, Repr

/-- Full observable behaviour of one connect() call: its outcome, the state
of the session when the call completes, and whether the credential
validation request (GET /auth/validate) was issued. -/
structure ConnectResult where
  outcome : ConnectOutcome
  state : ClientState
  validationRequested : Bool
deriving DecidableEq, Repr

/-- Embeds connect(). Parameters supply the outcomes of the I/O the method
performs: socketAvailable models _socketIsEnabled() (runtime detection of a
usable socket.io client), validateOk whether the GET /auth/validate request
succeeds, and setupOk whether the _setupWebSocket attempt succeeds. The
guard throws when this.isConnecting is already true, before any request;
otherwise the flag is set, validation runs, and a stream-setup failure is
caught inside connect (only a warning is logged) so the session still
reaches isConnected = true with isConnecting reset. A validation failure
resets both flags and rejects with a wrapping message. -/
def connect (s : ClientState) (socketAvailable validateOk setupOk : Bool) :
    ConnectResult :=
  if s.isConnecting then
    { outcome := ConnectOutcome.rejected "Connection already in progress"
      state := s
      validationRequested := false }
  else
    let s1 := { s with isConnecting := true }
    if validateOk then
      let s2 :=
        if s1.enableWebSocket && socketAvailable then setupWebSocketState s1 setupOk
        else s1
      let s3 := { s2 with isConnected := true, isConnecting := false }
      { outcome := ConnectOutcome.resolved (socketIsConnected s3)
        state := s3
        validationRequested := true }
    else
      { outcome := ConnectOutcome.rejected
          "Failed to connect to Cybernate: credential validation failed"
        state := { s1 with isConnected := false, isConnecting := false }
        validationRequested := true }

/-- Embeds disconnect(): if a socket object exists it is disconnected and
nulled (a null socket stays null), then isConnected and isConnecting are
cleared, the reconnect counter reset, and the active-watcher map cleared.
The listener table is not touched by this method. -/
def disconnect (s : ClientState) : ClientState :=
  { s with socket := none
           isConnected := false
           isConnecting := false
           reconnectCount := 0
           activeWatchers := [] }

/-- Claim C2: when the connection-in-progress guard passes, credential
validation succeeds, the stream transport is enabled and available, but the
stream setup step fails, connect() still resolves (reporting websocket not
enabled in its result), the session completes in the Connected state with
the socket not connected (HTTP-only mode), and a subsequent resource call
passes the _ensureConnected check. -/
theorem connect_stream_failure_nonfatal (s : ClientState)
    (h : s.isConnecting = false) (hw : s.enableWebSocket = true) :
    (connect s true true false).outcome = ConnectOutcome.resolved false ∧
    (connect s true true false).state.isConnected = true ∧
    socketIsConnected (connect s true true false).state = false ∧
    ensureConnected (connect s true true false).state = Except.ok () := by
  simp [connect, h, hw, setupWebSocketState, socketIsConnected, ensureConnected]

/-- Witness for C2: a freshly constructed session whose credential validates
but whose stream setup fails still connects in HTTP-only mode. -/
theorem connect_stream_failure_nonfatal_witness :
    (connect (initialState "k1") true true false).outcome = ConnectOutcome.resolved false ∧
    (connect (initialState "k1") true true false).state.isConnected = true ∧
    socketIsConnected (connect (initialState "k1") true true false).state = false ∧
    ensureConnected (connect (initialState "k1") true true false).state = Except.ok () :=
  connect_stream_failure_nonfatal (initialState "k1") rfl rfl

/-- Claim C4: calling connect() while a previous connect is still in flight
(isConnecting already true) rejects with the connection-in-progress error,
issues no credential-validation request, and leaves the session state
untouched, so at most one connect attempt is ever in flight. -/
theorem connect_rejects_concurrent (s : ClientState) (sa v st : Bool)
    (h : s.isConnecting = true) :
    connect s sa v st =
      { outcome := ConnectOutcome.rejected "Connection already in progress"
        state := s
        validationRequested := false } := by
  simp [connect, h]

/-- Witness for C4: a session mid-connect rejects a second connect call
without a validation request. -/
theorem connect_rejects_concurrent_witness :
    connect { initialState "k2" with isConnecting := true } true true true =
      { outcome := ConnectOutcome.rejected "Connection already in progress"
        state := { initialState "k2" with isConnecting := true }
        validationRequested := false } :=
  connect_rejects_concurrent { initialState "k2" with isConnecting := true } true true true rfl

/-- Claim C9, counterexample: a connect() call made while isConnecting is
already true completes (rejects) with the isConnecting flag still true, so
the claim that every completing connect call leaves the flag false fails at
this input. (The flag is owned by the other in-flight call, which clears it
when that call completes.) -/
theorem connect_guard_completion_keeps_flag :
    (connect { initialState "k3" with isConnecting := true } true true true).outcome =
        ConnectOutcome.rejected "Connection already in progress" ∧
    (connect { initialState "k3" with isConnecting := true } true true true).state.isConnecting = true := by
  constructor <;> rfl

/-- Claim C9, amended: every connect() call that passes the in-progress
guard (isConnecting false at entry) leaves isConnecting false on completion,
whether it resolves or rejects and whatever the validation and stream-setup
outcomes, so a failed connect never permanently blocks later connect calls. -/
theorem connect_completion_clears_connecting (s : ClientState) (sa v st : Bool)
    (h : s.isConnecting = false) :
    (connect s sa v st).state.isConnecting = false := by
  cases v <;> simp [connect, h, setupWebSocketState]

/-- Witness for the amended C9: a fresh session whose credential validation
fails still ends the call with isConnecting false. -/
theorem connect_completion_clears_connecting_witness :
    (connect (initialState "k3b") true false true).state.isConnecting = false :=
  connect_completion_clears_connecting (initialState "k3b") true false true rfl

/-- Claim C3, counterexample: disconnect() does not clear the listener
table. Starting from a connected session with one registered detection
listener, the table after disconnect() still holds that registration. -/
theorem disconnect_keeps_listener_table :
    (disconnect { initialState "k4" with
        eventListeners := [("detection", [0])]
        isConnected := true }).eventListeners = [("detection", [0])] ∧
    [("detection", [0])] ≠ ([] : ListenerTable) := by
  constructor
  · rfl
  · simp

/-- Claim C3, amended: disconnect() from any state tears down the stream
socket if present, clears the Watch Registry, resets the reconnect attempt
counter, clears both connection flags, and leaves the Listener Table
unchanged (it is not cleared); a second disconnect() is a no-op, producing
an identical state. -/
theorem disconnect_effects (s : ClientState) :
    (disconnect s).socket = none ∧
    (disconnect s).activeWatchers = [] ∧
    (disconnect s).reconnectCount = 0 ∧
    (disconnect s).isConnected = false ∧
    (disconnect s).isConnecting = false ∧
    (disconnect s).eventListeners = s.eventListeners ∧
    disconnect (disconnect s) = disconnect s :=
  ⟨rfl, rfl, rfl, rfl, rfl, rfl, rfl⟩

/-! ## Watch call

The watch(options) method validates its options, chooses the endpoint,
builds the payload (defaulting the notification method from the live socket
state), and only then issues the POST request. The detection-settings blob
is passed through unchanged and is modelled as an opaque optional value. -/

/-- Notification settings object of a watch payload. -/
structure NotificationSettings where
  method : String
  webhookUrl : Option String
deriving DecidableEq, Repr

/-- Options accepted by watch(). -/
structure WatchOptions where
  streamUrl : Option String
  deviceId : Option String
  businessId : Option String
  name : Option String
  detectionSettings : Option String
  notificationSettings : Option NotificationSettings
deriving DecidableEq, Repr

/-- Server response to a successful watch request. -/
structure WatchResponse where
  watcherId : String
  type : String
  entityId : String
deriving DecidableEq, Repr

/-- Endpoint chosen by watch(): streams take precedence over devices over
businesses, tested with JavaScript string truthiness. -/
def watchEndpoint (o : WatchOptions) : String :=
  if strTruthy o.streamUrl then "/streams/watch"
  else if strTruthy o.deviceId then "/devices/watch"
  else "/businesses/watch"

/-- Notification settings attached to the watch payload: the caller-supplied
object when present, otherwise a default whose method is "socket" exactly
when this.socket?.connected is true at call time and "webhook" otherwise,
with no webhookUrl. -/
def watchNotificationSettings (s : ClientState) (o : WatchOptions) :
    NotificationSettings :=
  match o.notificationSettings with
  | some ns => ns
  | none =>
    { method := if socketIsConnected s then "socket" else "webhook"
      webhookUrl := none }

/-- Models Map.prototype.set on the active-watcher map: overwrites the entry
with the given key if present, otherwise appends it. -/
def mapSet (m : List (String × WatcherInfo)) (k : String) (v : WatcherInfo) :
    List (String × WatcherInfo) :=
  if m.any (fun e => decide (e.1 = k)) then
    m.map (fun e => if e.1 = k then (k, v) else e)
  else m ++ [(k, v)]

/-- Observable behaviour of one watch() call: the thrown error or returned
response, the session state on completion, and whether the POST request was
issued to the request executor. -/
structure WatchCallResult where
  result : Except String WatchResponse
  state : ClientState
  requestSent : Bool
deriving Repr

/-- Embeds watch(options). The response parameter supplies what the server
would answer if the request is issued. Checks run in source order: the
connected check, the target-present check, then (after endpoint and payload
are built) the webhook-without-url check; each failure throws before the
request executor is invoked and leaves the session state unchanged. On
success the watcher map records the response under its watcher id. -/
def watch (s : ClientState) (o : WatchOptions) (resp : WatchResponse) :
    WatchCallResult :=
  match ensureConnected s with
  | Except.error e => { result := Except.error e, state := s, requestSent := false }
  | Except.ok _ =>
    if strTruthy o.streamUrl = false ∧ strTruthy o.deviceId = false ∧
        strTruthy o.businessId = false then
      { result := Except.error "You must specify either streamUrl, deviceId, or businessId"
        state := s
        requestSent := false }
    else
      let ns := watchNotificationSettings s o
      if ns.method = "webhook" ∧ strTruthy ns.webhookUrl = false then
        { result := Except.error "webhookUrl is required for webhook notifications"
          state := s
          requestSent := false }
      else
        { result := Except.ok resp
          state := { s with activeWatchers := (mapSet s.activeWatchers resp.watcherId
              { id := resp.watcherId, type := resp.type, entityId := resp.entityId }) }
          requestSent := true }

/-- Claim C5: on a connected session whose socket is not currently
connected, watch with only a deviceId and no notificationSettings selects
the /devices/watch endpoint, defaults the notification method to "webhook",
and, lacking a webhookUrl, throws the webhook validation error before the
request executor is invoked: no request is sent and the session state, the
watcher registry included, is unchanged. -/
theorem watch_device_defaults_webhook_fails (s : ClientState) (d : String)
    (resp : WatchResponse) (hc : s.isConnected = true)
    (hs : socketIsConnected s = false) (hd : d ≠ "") :
    watchEndpoint
        { streamUrl := none, deviceId := some d, businessId := none,
          name := none, detectionSettings := none, notificationSettings := none } =
      "/devices/watch" ∧
    (watchNotificationSettings s
        { streamUrl := none, deviceId := some d, businessId := none,
          name := none, detectionSettings := none, notificationSettings := none }).method =
      "webhook" ∧
    watch s
        { streamUrl := none, deviceId := some d, businessId := none,
          name := none, detectionSettings := none, notificationSettings := none } resp =
      { result := Except.error "webhookUrl is required for webhook notifications"
        state := s
        requestSent := false } := by
  refine ⟨?_, ?_, ?_⟩
  · simp [watchEndpoint, strTruthy, hd]
  · simp [watchNotificationSettings, hs]
  · simp [watch, ensureConnected, hc, strTruthy, hd, watchNotificationSettings, hs]

/-- Witness for C5: a connected HTTP-only session watching device d1. -/
theorem watch_device_defaults_webhook_fails_witness :
    watch { initialState "k5" with isConnected := true }
        { streamUrl := none, deviceId := some "d1", businessId := none,
          name := none, detectionSettings := none, notificationSettings := none }
        { watcherId := "w1", type := "device", entityId := "d1" } =
      { result := Except.error "webhookUrl is required for webhook notifications"
        state := { initialState "k5" with isConnected := true }
        requestSent := false } :=
  (watch_device_defaults_webhook_fails { initialState "k5" with isConnected := true }
    "d1" { watcherId := "w1", type := "device", entityId := "d1" }
    rfl rfl (by decide)).2.2

/-! ## Stream reconnect policy

The socket disconnect handler installed by _setupWebSocket schedules a
timer when the server initiated the disconnect and auto-reconnect is on;
when the timer fires, a reconnect attempt is made only while the attempt
counter is below the configured maximum, and the counter is incremented
with the attempt. The connect handler resets the counter to zero. -/

/-- Embeds the guard of the disconnect handler: a reconnect timer is
scheduled exactly when the reason is the server-initiated one and
this.autoReconnect is set. -/
def streamDisconnectSchedules (s : ClientState) (reason : String) : Bool :=
  decide (reason = "io server disconnect") && s.autoReconnect

/-- Embeds the body of the scheduled reconnect timer: if the attempt
counter is below the maximum, increment it and launch one _setupWebSocket
attempt (the returned flag reports that an attempt was made); otherwise do
nothing. -/
def fireReconnectTimer (s : ClientState) : ClientState × Bool :=
  if s.reconnectCount < s.reconnectAttempts then
    ({ s with reconnectCount := s.reconnectCount + 1 }, true)
  else (s, false)

/-- Embeds the socket connect handler: the socket is now connected and the
reconnect counter is reset to zero. -/
def streamConnectHandler (s : ClientState) : ClientState :=
  { s with socket := some true, reconnectCount := 0 }

/-- Runs n cycles of: the server disconnects the stream, the disconnect
handler fires with reason io server disconnect (scheduling the timer when
the guard allows), the timer fires, and any launched reconnect attempt
fails (so the socket stays disconnected). Returns the final state and the
total number of reconnect attempts made. -/
def failedReconnectCycles : ClientState → Nat → ClientState × Nat
  | s, 0 => (s, 0)
  | s, n + 1 =>
    let sDrop := { s with socket := some false }
    if streamDisconnectSchedules sDrop "io server disconnect" then
      let fired := fireReconnectTimer sDrop
      let rest := failedReconnectCycles fired.1 n
      (rest.1, (if fired.2 then 1 else 0) + rest.2)
    else
      failedReconnectCycles sDrop n

theorem failedReconnectCycles_spec (n : Nat) (s : ClientState)
    (h : s.autoReconnect = true) :
    (failedReconnectCycles s n).2 =
      min n (s.reconnectAttempts - s.reconnectCount) ∧
    (failedReconnectCycles s n).1.reconnectCount =
      s.reconnectCount + min n (s.reconnectAttempts - s.reconnectCount) ∧
    (failedReconnectCycles s n).1.reconnectAttempts = s.reconnectAttempts := by
  induction n generalizing s with
  | zero => simp [failedReconnectCycles]
  | succ n ih =>
    by_cases hlt : s.reconnectCount < s.reconnectAttempts
    · have step2 :
          (failedReconnectCycles s (n + 1)).2 =
            1 + (failedReconnectCycles
              { s with socket := some false, reconnectCount := s.reconnectCount + 1 } n).2 := by
        simp [failedReconnectCycles, streamDisconnectSchedules, h, fireReconnectTimer, hlt]
      have step1 :
          (failedReconnectCycles s (n + 1)).1 =
            (failedReconnectCycles
              { s with socket := some false, reconnectCount := s.reconnectCount + 1 } n).1 := by
        simp [failedReconnectCycles, streamDisconnectSchedules, h, fireReconnectTimer, hlt]
      have ih' := ih { s with socket := some false, reconnectCount := s.reconnectCount + 1 }
        (by simpa using h)
      simp only [ClientState.reconnectCount, ClientState.reconnectAttempts] at ih'
      refine ⟨?_, ?_, ?_⟩
      · rw [step2]
        have h1 := ih'.1
        omega
      · rw [step1]
        have h2 := ih'.2.1
        omega
      · rw [step1]
        exact ih'.2.2
    · have step2 :
          (failedReconnectCycles s (n + 1)).2 =
            (failedReconnectCycles { s with socket := some false } n).2 := by
        simp [failedReconnectCycles, streamDisconnectSchedules, h, fireReconnectTimer, hlt]
      have step1 :
          (failedReconnectCycles s (n + 1)).1 =
            (failedReconnectCycles { s with socket := some false } n).1 := by
        simp [failedReconnectCycles, streamDisconnectSchedules, h, fireReconnectTimer, hlt]
      have ih' := ih { s with socket := some false } (by simpa using h)
      simp only [ClientState.reconnectCount, ClientState.reconnectAttempts] at ih'
      refine ⟨?_, ?_, ?_⟩
      · rw [step2]
        have h1 := ih'.1
        omega
      · rw [step1]
        have h2 := ih'.2.1
        omega
      · rw [step1]
        exact ih'.2.2

/-- Claim C6: with auto-reconnect on, the attempt counter at zero, and the
maximum set to N, any run of at least N repeated server-initiated stream
disconnects whose reconnect attempts all fail makes exactly N automatic
reconnect attempts, leaving the counter at N; once the counter has reached
N the timer makes no further automatic attempt; and a reconnect that
succeeds (the socket connect handler) resets the counter to zero. -/
theorem reconnect_attempts_bounded (s : ClientState) (n N : Nat)
    (ha : s.autoReconnect = true) (hc : s.reconnectCount = 0)
    (hA : s.reconnectAttempts = N) (hn : N ≤ n) :
    (failedReconnectCycles s n).2 = N ∧
    (failedReconnectCycles s n).1.reconnectCount = N ∧
    (fireReconnectTimer (failedReconnectCycles s n).1).2 = false ∧
    (streamConnectHandler (failedReconnectCycles s n).1).reconnectCount = 0 := by
  have hspec := failedReconnectCycles_spec n s ha
  have h1 : (failedReconnectCycles s n).2 = N := by
    rw [hspec.1, hc, hA]
    omega
  have h2 : (failedReconnectCycles s n).1.reconnectCount = N := by
    rw [hspec.2.1, hc, hA]
    omega
  refine ⟨h1, h2, ?_, rfl⟩
  unfold fireReconnectTimer
  rw [if_neg]
  rw [h2, hspec.2.2, hA]
  omega

/-- Witness for C6: max attempts 3, five failing disconnect cycles, exactly
3 attempts and a counter stopped at 3. -/
theorem reconnect_attempts_bounded_witness :
    (failedReconnectCycles { initialState "k6" with reconnectAttempts := 3 } 5).2 = 3 ∧
    (failedReconnectCycles { initialState "k6" with reconnectAttempts := 3 } 5).1.reconnectCount = 3 :=
  ⟨(reconnect_attempts_bounded { initialState "k6" with reconnectAttempts := 3 } 5 3
      rfl rfl rfl (by decide)).1,
   (reconnect_attempts_bounded { initialState "k6" with reconnectAttempts := 3 } 5 3
      rfl rfl rfl (by decide)).2.1⟩

/-- Embeds retryWebSocketConnection(). Throws when the stream transport is
disabled or the socket.io client is unavailable; returns true without an
attempt when the socket is already connected; otherwise performs exactly
one _setupWebSocket attempt and returns its success as a boolean (the
returned number counts the setup attempts performed). -/
def retryWebSocketConnection (s : ClientState) (socketAvailable setupOk : Bool) :
    Except String (Bool × ClientState × Nat) :=
  if !s.enableWebSocket || !socketAvailable then
    Except.error "WebSocket not enabled or available"
  else if socketIsConnected s then
    Except.ok (true, s, 0)
  else if setupOk then
    Except.ok (true, setupWebSocketState s true, 1)
  else
    Except.ok (false, setupWebSocketState s false, 1)

/-- Claim C7, counterexample: on a session whose stream transport is
disabled, the manual retry throws (rejects) instead of returning a boolean,
so the claim does not hold for every session state. -/
theorem retry_throws_when_disabled :
    retryWebSocketConnection { initialState "k7" with enableWebSocket := false } true true =
      Except.error "WebSocket not enabled or available" := rfl

/-- Claim C7, amended: on every session state whose stream transport is
enabled and whose socket.io client is available, the manual retry performs
at most one fresh setup attempt whatever the value of the reconnect attempt
counter, returns success or failure as a boolean rather than throwing, and
returns true with no new attempt when the socket is already connected; when
the transport is disabled or unavailable it throws instead. -/
theorem retry_single_attempt_boolean (s : ClientState) (setupOk : Bool)
    (hw : s.enableWebSocket = true) :
    (∃ b s' n, retryWebSocketConnection s true setupOk = Except.ok (b, s', n) ∧ n ≤ 1) ∧
    (socketIsConnected s = true →
      retryWebSocketConnection s true setupOk = Except.ok (true, s, 0)) := by
  constructor
  · unfold retryWebSocketConnection
    rw [if_neg (by simp [hw])]
    by_cases hs : socketIsConnected s
    · exact ⟨true, s, 0, by simp [hs], by omega⟩
    · cases setupOk
      · exact ⟨false, setupWebSocketState s false, 1, by simp [hs], by omega⟩
      · exact ⟨true, setupWebSocketState s true, 1, by simp [hs], by omega⟩
  · intro hs
    unfold retryWebSocketConnection
    rw [if_neg (by simp [hw])]
    simp [hs]

/-- Witness for the amended C7: a session with an already-connected socket
returns true from the manual retry with no new setup attempt. -/
theorem retry_single_attempt_boolean_witness :
    retryWebSocketConnection { initialState "k8" with socket := some true } true true =
      Except.ok (true, { initialState "k8" with socket := some true }, 0) :=
  (retry_single_attempt_boolean { initialState "k8" with socket := some true } true rfl).2 rfl

/-! ## Request Executor response handling

The response branch of _request: the three X-RateLimit headers are read
into this.rateLimit (each only when the header is present), then a non-ok
status is turned into a thrown error whose message depends on the status
category; the surrounding catch re-wraps the message. The bodyMessage field
models the message string available after the error-payload parse step
(the parse-failure branch synthesizes one, so none means the parsed payload
had no message field). -/

/-- Response as seen by _request: status, the three optional rate-limit
headers, and the message of the parsed error payload when one exists. -/
structure HttpResponse where
  status : Nat
  rlLimit : Option Nat
  rlRemaining : Option Nat
  rlReset : Option Nat
  bodyMessage : Option String
deriving DecidableEq, Repr

/-- Models the response.ok flag of fetch: status in the 2xx range. -/
def respOk (status : Nat) : Bool :=
  decide (200 ≤ status) && decide (status < 300)

/-- Embeds the three header checks of _request: each rate-limit field is
overwritten only when its header is present, otherwise kept. -/
def updateRateLimit (rl : RateLimit) (resp : HttpResponse) : RateLimit :=
  let rl1 :=
    match resp.rlLimit with
    | some v => { rl with limit := v }
    | none => rl
  let rl2 :=
    match resp.rlRemaining with
    | some v => { rl1 with remaining := v }
    | none => rl1
  match resp.rlReset with
  | some v => { rl2 with reset := v }
  | none => rl2

/-- Embeds the status-specific error construction of _request for a non-ok
response, with the per-branch fallback used when the parsed payload carries
no message. -/
def requestErrorMessage (resp : HttpResponse) : String :=
  if resp.status = 401 then
    "Authentication failed: " ++ resp.bodyMessage.getD "Invalid API key"
  else if resp.status = 403 then
    "Access forbidden: " ++ resp.bodyMessage.getD "Insufficient permissions"
  else if resp.status = 404 then
    "Endpoint not found: " ++ resp.bodyMessage.getD "The requested resource was not found"
  else if 500 ≤ resp.status then
    "Server error: " ++ resp.bodyMessage.getD "Internal server error"
  else
    resp.bodyMessage.getD ("HTTP error " ++ toString resp.status)

/-- Embeds the response-handling tail of _request(method, path, data) once a
response has been received: the rate-limit snapshot is updated from the
headers first; then an ok response resolves with the parsed body while a
non-ok response throws, the thrown message re-wrapped by the surrounding
catch block. Both branches carry the updated snapshot. -/
def handleHttpResponse (s : ClientState) (resp : HttpResponse) (bodyData : String) :
    Except String String × ClientState :=
  let s1 := { s with rateLimit := updateRateLimit s.rateLimit resp }
  if respOk resp.status then (Except.ok bodyData, s1)
  else (Except.error ("API request failed: " ++ requestErrorMessage resp), s1)

/-- Claim C10: for every received response, ok or not, each rate-limit
snapshot field present in the headers is set to the header value and each
absent field is left unchanged on the state the call completes with; in
particular a non-ok response, which makes the call throw, still carries the
updated snapshot, so the update happens on the error path too. -/
theorem rate_limit_updated_even_on_error (s : ClientState) (resp : HttpResponse)
    (bodyData : String) :
    (handleHttpResponse s resp bodyData).2.rateLimit.limit =
      resp.rlLimit.getD s.rateLimit.limit ∧
    (handleHttpResponse s resp bodyData).2.rateLimit.remaining =
      resp.rlRemaining.getD s.rateLimit.remaining ∧
    (handleHttpResponse s resp bodyData).2.rateLimit.reset =
      resp.rlReset.getD s.rateLimit.reset ∧
    (respOk resp.status = false →
      (handleHttpResponse s resp bodyData).1 =
        Except.error ("API request failed: " ++ requestErrorMessage resp)) := by
  have hrl :
      updateRateLimit s.rateLimit resp =
        { limit := resp.rlLimit.getD s.rateLimit.limit
          remaining := resp.rlRemaining.getD s.rateLimit.remaining
          reset := resp.rlReset.getD s.rateLimit.reset } := by
    unfold updateRateLimit
    cases resp.rlLimit <;> cases resp.rlRemaining <;> cases resp.rlReset <;> rfl
  unfold handleHttpResponse
  by_cases hok : respOk resp.status
  · simp [hok, hrl]
  · simp [hok, hrl]

/-- Witness for C10: a 500 response carrying only the X-RateLimit-Limit
header updates that field and still throws the wrapped server error. -/
theorem rate_limit_updated_even_on_error_witness :
    (handleHttpResponse (initialState "k9")
        { status := 500, rlLimit := some 7, rlRemaining := none,
          rlReset := none, bodyMessage := none } "b").1 =
      Except.error ("API request failed: " ++ requestErrorMessage
        { status := 500, rlLimit := some 7, rlRemaining := none,
          rlReset := none, bodyMessage := none }) :=
  (rate_limit_updated_even_on_error (initialState "k9")
    { status := 500, rlLimit := some 7, rlRemaining := none,
      rlReset := none, bodyMessage := none } "b").2.2.2 rfl

/-- Witness for C8: registering under "detection" leaves the "all" entry
unchanged, and unregistering from an empty table is a no-op. -/
theorem listener_register_unregister_witness :
    getListeners (onListener [("all", [5])] "detection" 7) "all" = [5] ∧
    off ([] : ListenerTable) "detection" (some 7) = [] :=
  ⟨(listener_register_unregister [("all", [5])] "detection" 7).2.2.1 "all" (by decide),
   (listener_register_unregister [] "detection" 7).2.2.2.2.2 rfl (some 7)⟩

end Cybernate
